import Mathlib

/-!
Shallow embedding of the core of the devthreadline repository:
the glob pattern matchers (`matchesPattern` in
`packages/server/src/types/result.ts` and
`packages/server/src/processors/single-expert.ts`), the per-rule task
semantics (`processExpert`, `processThreadline`), the dispatch and
aggregation pipeline (`processExperts`), and the diff resolvers
(`getGitDiff`, `getGitHubDiff` in `packages/cli/src/git/diff.ts`).

External effects (the OpenAI completion call, the 40 s timer, git) are
modelled by explicit environment values passed as parameters; JavaScript
string and regular-expression primitives are modelled by executable Lean
functions documented below.
-/

namespace Threadline

/-- JavaScript `haystack.includes(needle)` on lists of characters:
true when `needle` occurs as a contiguous run inside `haystack`. -/
def listIncludes (needle : List Char) : List Char → Bool
  | [] => needle.isEmpty
  | c :: rest => needle.isPrefixOf (c :: rest) || listIncludes needle rest

/-- JavaScript `s.includes(sub)`. -/
def strIncludes (s sub : String) : Bool :=
  listIncludes sub.data s.data

/-- JavaScript `String.prototype.replace` with a global literal pattern:
left-to-right, non-overlapping replacement of every occurrence.  The fuel
argument is the length of the scanned list, which strictly bounds the
recursion since every step consumes at least one character. -/
def replaceAllList : Nat → List Char → List Char → List Char → List Char
  | _, [], _, _ => []
  | 0, s, _, _ => s
  | fuel + 1, c :: rest, pat, rep =>
    if !pat.isEmpty && pat.isPrefixOf (c :: rest) then
      rep ++ replaceAllList fuel ((c :: rest).drop pat.length) pat rep
    else
      c :: replaceAllList fuel rest pat rep

/-- JavaScript `s.replace(/pat/g, rep)` for a literal pattern `pat`. -/
def jsReplaceAll (s pat rep : String) : String :=
  ⟨replaceAllList s.data.length s.data pat.data rep.data⟩

namespace JSRegex

/-- One atom of the regular-expression subset produced by the glob
conversion: a literal character, `.`, or a character class `[...]` /
`[^...]`. -/
inductive RAtom where
  | lit (c : Char)
  | anyChar
  | charClass (neg : Bool) (cs : List Char)
deriving DecidableEq, Repr

/-- An atom, optionally under a `*` quantifier. -/
inductive RPiece where
  | once (a : RAtom)
  | star (a : RAtom)
deriving DecidableEq, Repr

/-- Whether a single character matches an atom.  JavaScript `.` (without
the `s` flag) matches every character except line terminators. -/
def atomMatches : RAtom → Char → Bool
  | .lit c, d => c == d
  | .anyChar, d =>
      !(d == '\n' || d == '\r' || d == Char.ofNat 0x2028 || d == Char.ofNat 0x2029)
  | .charClass neg cs, d => if neg then !cs.contains d else cs.contains d

/-- Collects the characters of a `[...]` class up to the closing `]`,
returning them with the rest of the input.  `none` models the
`SyntaxError` RegExp raises on an unterminated class (escapes are outside
the modelled subset). -/
def parseClassBody : List Char → Option (List Char × List Char)
  | [] => none
  | ']' :: rest => some ([], rest)
  | '\\' :: _ => none
  | c :: rest =>
    match parseClassBody rest with
    | none => none
    | some (cs, r) => some (c :: cs, r)

/-- Characters accepted as literal atoms in the modelled subset.
`(`, `)`, `|`, `+`, `?`, `{`, `}`, `\`, `^`, `$` and a bare `*` are
outside the subset (a lone `(` or a leading `*` is a genuine RegExp
`SyntaxError`). -/
def supportedLiteral (c : Char) : Bool :=
  !(c == '(' || c == ')' || c == '|' || c == '+' || c == '?' || c == '{' ||
    c == '}' || c == '\\' || c == '^' || c == '$' || c == '*' || c == '[' ||
    c == ']')

/-- Parses one atom at the head of the input. -/
def parseAtom : Char → List Char → Option (RAtom × List Char)
  | '.', rest => some (.anyChar, rest)
  | '[', '^' :: rest =>
    match parseClassBody rest with
    | none => none
    | some (cs, r) => some (.charClass true cs, r)
  | '[', rest =>
    match parseClassBody rest with
    | none => none
    | some (cs, r) => some (.charClass false cs, r)
  | c, rest => if supportedLiteral c then some (.lit c, rest) else none

/-- Parses a sequence of pieces; `fuel` is an upper bound on the input
length (every step consumes at least one character).  `none` models a
RegExp `SyntaxError` or a construct outside the modelled subset. -/
def parsePieces : Nat → List Char → Option (List RPiece)
  | _, [] => some []
  | 0, _ :: _ => none
  | fuel + 1, c :: rest =>
    match parseAtom c rest with
    | none => none
    | some (a, r) =>
      match r with
      | '*' :: r2 =>
        match parsePieces fuel r2 with
        | none => none
        | some ps => some (RPiece.star a :: ps)
      | _ =>
        match parsePieces fuel r with
        | none => none
        | some ps => some (RPiece.once a :: ps)

/-- Whether a piece sequence accepts the empty string. -/
def nullable : List RPiece → Bool
  | [] => true
  | .once _ :: _ => false
  | .star _ :: ps => nullable ps

/-- Brzozowski-style derivative of a piece sequence with respect to one
character: the possible residual sequences after consuming it. -/
def derivOne (c : Char) : List RPiece → List (List RPiece)
  | [] => []
  | .once a :: ps => if atomMatches a c then [ps] else []
  | .star a :: ps =>
    (if atomMatches a c then [RPiece.star a :: ps] else []) ++ derivOne c ps

/-- Advances a set of residual states by one character. -/
def stepStates (states : List (List RPiece)) (c : Char) : List (List RPiece) :=
  states.flatMap (derivOne c)

/-- Full (anchored) match of a piece sequence against a character list. -/
def reMatches (ps : List RPiece) (s : List Char) : Bool :=
  (s.foldl stepStates [ps]).any nullable

/-- Models JavaScript `new RegExp(source).test(input)` for sources of the
shape `"^" ++ body ++ "$"` produced by the glob conversion, over the
subset of literals, `.`, character classes and postfix `*`.  `none`
models a thrown `SyntaxError` (e.g. an unterminated group from a `(` in
the body) or a construct outside the subset. -/
def regexTest (source : String) (input : String) : Option Bool :=
  match source.data with
  | '^' :: body =>
    if body.getLast? = some '$' then
      match parsePieces body.length body.dropLast with
      | none => none
      | some ps => some (reMatches ps input.data)
    else none
  | _ => none

end JSRegex

namespace ResultTs

/-- `matchesPattern` from `packages/server/src/types/result.ts`: the glob
is converted to a regular expression by first hiding `**` behind a
placeholder, replacing `*` with `[^/]*`, restoring `**` as `.*`, and
replacing `?` with `.`; the result is anchored and tested.  `none` models
the RegExp constructor throwing. -/
def matchesPattern (filePath : String) (pat : String) : Option Bool :=
  let regexPattern :=
    jsReplaceAll
      (jsReplaceAll (jsReplaceAll (jsReplaceAll pat "**" "__DOUBLE_STAR__")
        "*" "[^/]*") "__DOUBLE_STAR__" ".*") "?" "."
  JSRegex.regexTest ("^" ++ regexPattern ++ "$") filePath

end ResultTs

namespace SingleExpert

/-- `matchesPattern` from `packages/server/src/processors/single-expert.ts`:
`**` is replaced by `.*` first, after which the `*` pass rewrites the star
it just produced, so `**` effectively becomes `.[^/]*`. -/
def matchesPattern (filePath : String) (pat : String) : Option Bool :=
  let regexPattern :=
    jsReplaceAll (jsReplaceAll (jsReplaceAll pat "**" ".*") "*" "[^/]*") "?" "."
  JSRegex.regexTest ("^" ++ regexPattern ++ "$") filePath

end SingleExpert

/-- `ExpertResult.status` values (`packages/server/src/types/result.ts`).
A runtime status outside this union (possible in JavaScript) is not
modelled; a missing or falsy `status` is (see `ParsedResponse`). -/
inductive ExpertStatus where
  | compliant
  | attention
  | not_relevant
deriving DecidableEq, Repr, Inhabited

/-- `ExpertResult` from `packages/server/src/types/result.ts`. -/
structure ExpertResult where
  expertId : String
  status : ExpertStatus
  reasoning : Option String := none
  lineReferences : Option (List Nat) := none
  fileReferences : Option (List String) := none
deriving DecidableEq, Repr, Inhabited

/-- `ExpertInput` from `single-expert.ts` (the same shape as
`ThreadlineInput` in `result.ts` and the `experts` entries of
`ProcessExpertsRequest`). -/
structure ExpertInput where
  id : String
  version : String
  patterns : List String
  content : String
  contextFiles : List String := []
  contextContent : List (String × String) := []
deriving DecidableEq, Repr, Inhabited

/-- `ThreadlineInput` from `result.ts` has the same fields as
`ExpertInput`. -/
abbrev ThreadlineInput := ExpertInput

/-- The JSON object parsed from the completion backend's reply:
`status` (none models a missing or falsy field, which `||` defaults),
`reasoning`, and `line_references`. -/
structure ParsedResponse where
  status : Option ExpertStatus := none
  reasoning : Option String := none
  line_references : Option (List Nat) := none
deriving DecidableEq, Repr, Inhabited

/-- How the external completion call inside `processExpert`'s `try` block
would go for one task: `replied parsed` models the call resolving with
content that parses as `parsed`; `threw msg` models any throw inside the
`try` block — a network/transport rejection of the call, a missing
content (`throw new Error('No response from LLM')`), or a `JSON.parse`
failure — with `msg` the thrown error's message. -/
inductive CallOutcome where
  | replied (parsed : ParsedResponse)
  | threw (msg : String)
deriving DecidableEq, Repr, Inhabited

/-- The environment of one dispatched task as seen by the
`Promise.race` in `processExperts`: either `processExpert` settles before
the 40 s timer (`completes`), or the external call is still pending when
the timer fires (`hangs`). -/
inductive TaskEnv where
  | completes (o : CallOutcome)
  | hangs
deriving DecidableEq, Repr, Inhabited

/-- A settled promise, as observed by `Promise.allSettled`: fulfilled
with an `ExpertResult`, or rejected with an optional error message
(`result.reason?.message`). -/
inductive Settled where
  | fulfilled (r : ExpertResult)
  | rejected (reason : Option String)
deriving DecidableEq, Repr, Inhabited

/-- Modelled message of the `SyntaxError` the RegExp constructor throws
on an invalid pattern (the precise V8 text is environment-specific). -/
def regexSyntaxErrorMsg : String := "Invalid regular expression"

namespace SingleExpert

/-- JavaScript `patterns.some(p => matchesPattern(file, p))`:
left-to-right with short-circuit; a throw (`none`) aborts. -/
def someMatches (patterns : List String) (file : String) : Option Bool :=
  match patterns with
  | [] => some false
  | p :: ps =>
    match matchesPattern file p with
    | none => none
    | some true => some true
    | some false => someMatches ps file

/-- `files.filter(file => expert.patterns.some(pattern =>
matchesPattern(file, pattern)))` in `processExpert`; `none` models the
filter throwing because some pattern is an invalid regex. -/
def matchingFiles (patterns : List String) (files : List String) :
    Option (List String) :=
  match files with
  | [] => some []
  | f :: fs =>
    match someMatches patterns f with
    | none => none
    | some b =>
      match matchingFiles patterns fs with
      | none => none
      | some rest => some (if b then f :: rest else rest)

/-- The `fileReferences` computation of `processExpert`'s success path:
when `parsed.line_references` is an array, the matching files occurring
in the diff text; otherwise empty. -/
def fileReferencesOf (parsed : ParsedResponse) (diff : String)
    (matchedFiles : List String) : List String :=
  match parsed.line_references with
  | some _ => matchedFiles.filter (fun file => strIncludes diff file)
  | none => []

/-- The `ExpertResult` built on `processExpert`'s success path:
`status: parsed.status || 'not_relevant'`, `reasoning`,
`lineReferences`, and `fileReferences` falling back to the matching
files when the computed list is empty. -/
def successResult (expert : ExpertInput) (diff : String)
    (matchedFiles : List String) (parsed : ParsedResponse) : ExpertResult :=
  let fileRefs := fileReferencesOf parsed diff matchedFiles
  { expertId := expert.id
    status := parsed.status.getD .not_relevant
    reasoning := parsed.reasoning
    lineReferences := parsed.line_references
    fileReferences := some (if fileRefs.length > 0 then fileRefs else matchedFiles) }

/-- `processExpert` from `single-expert.ts`, as the settling of the
promise it returns, given how the external call would go (`o`): a
pattern-to-regex failure rejects the promise (the throw happens outside
the `try` block); zero matching files short-circuits to `not_relevant`;
otherwise the `try` block either succeeds or catches the throw as an
`Error processing expert:` soft failure. -/
def processExpert (expert : ExpertInput) (diff : String)
    (files : List String) (o : CallOutcome) : Settled :=
  match matchingFiles expert.patterns files with
  | none => .rejected (some regexSyntaxErrorMsg)
  | some [] =>
    .fulfilled
      { expertId := expert.id
        status := .not_relevant
        reasoning := some "No files match expert patterns" }
  | some (f :: fs) =>
    match o with
    | .threw m =>
      .fulfilled
        { expertId := expert.id
          status := .not_relevant
          reasoning := some ("Error processing expert: " ++ m) }
    | .replied parsed =>
      .fulfilled (successResult expert diff (f :: fs) parsed)

end SingleExpert

namespace Experts

/-- One arm of the `Promise.race` in `processExperts`: `processExpert`
raced against the 40 s timer.  When the environment would hang the
external call, the synchronous paths of `processExpert` (regex throw,
zero-match short-circuit) still settle first; only a task that actually
awaits the call resolves to the synthetic timeout result. -/
def raceExpert (expert : ExpertInput) (diff : String)
    (files : List String) (env : TaskEnv) : Settled :=
  match env with
  | .completes o => SingleExpert.processExpert expert diff files o
  | .hangs =>
    match SingleExpert.matchingFiles expert.patterns files with
    | none => .rejected (some regexSyntaxErrorMsg)
    | some [] =>
      .fulfilled
        { expertId := expert.id
          status := .not_relevant
          reasoning := some "No files match expert patterns" }
    | some (_ :: _) =>
      .fulfilled
        { expertId := expert.id
          status := .not_relevant
          reasoning := some "Request timed out after 40s" }

/-- `ProcessExpertsRequest` from the experts processor module. -/
structure ProcessExpertsRequest where
  experts : List ExpertInput
  diff : String
  files : List String
  apiKey : String
deriving DecidableEq, Repr, Inhabited

/-- The `metadata` object of `ProcessExpertsResponse`. -/
structure Metadata where
  totalExperts : Nat
  completed : Nat
  timedOut : Nat
  errors : Nat
deriving DecidableEq, Repr, Inhabited

/-- `ProcessExpertsResponse` from the experts processor module. -/
structure ProcessExpertsResponse where
  results : List ExpertResult
  metadata : Metadata
deriving DecidableEq, Repr, Inhabited

/-- The settled outcomes observed by `Promise.allSettled`, one per
expert, index-aligned with the input list (`envs` supplies the
environment of each task). -/
def settledTasks (experts : List ExpertInput) (diff : String)
    (files : List String) (envs : List TaskEnv) : List Settled :=
  List.zipWith (fun e env => raceExpert e diff files env) experts envs

/-- `expertResult.reasoning?.includes('timed out')`: the classification
test of the aggregation loop (an absent reasoning is falsy). -/
def hasTimedOutReasoning (r : ExpertResult) : Bool :=
  match r.reasoning with
  | some s => strIncludes s "timed out"
  | none => false

/-- The entry the aggregation loop pushes for task `i`: the fulfilled
value itself, or a synthetic `not_relevant` built from
`result.reason?.message || 'Unknown error'`. -/
def settledResult (expert : ExpertInput) (s : Settled) : ExpertResult :=
  match s with
  | .fulfilled r => r
  | .rejected reason =>
    { expertId := expert.id
      status := .not_relevant
      reasoning := some ("Error: " ++ reason.getD "Unknown error") }

/-- The `expertResults` array built by the aggregation loop, one entry
per settled task, index-aligned with the experts. -/
def expertResultsOf (experts : List ExpertInput) (settled : List Settled) :
    List ExpertResult :=
  (experts.zip settled).map (fun p => settledResult p.1 p.2)

/-- Whether the loop counts a settled task in `completed`: fulfilled and
the reasoning lacks the timeout marker. -/
def isCompletedB (s : Settled) : Bool :=
  match s with
  | .fulfilled r => !hasTimedOutReasoning r
  | .rejected _ => false

/-- Whether the loop counts a settled task in `timedOut`: fulfilled and
the reasoning contains the timeout marker. -/
def isTimedOutB (s : Settled) : Bool :=
  match s with
  | .fulfilled r => hasTimedOutReasoning r
  | .rejected _ => false

/-- Whether the loop counts a settled task in `errors`: rejected. -/
def isErrorB (s : Settled) : Bool :=
  match s with
  | .fulfilled _ => false
  | .rejected _ => true

/-- The counters accumulated by the aggregation loop. -/
def metadataOf (totalExperts : Nat) (settled : List Settled) : Metadata :=
  { totalExperts := totalExperts
    completed := settled.countP isCompletedB
    timedOut := settled.countP isTimedOutB
    errors := settled.countP isErrorB }

/-- `processExperts` from the experts processor module: race every
expert's task against the timeout, await all settlements, classify and
collect them in input order, filter `not_relevant` out of the visible
results, and report the pre-filter counters. -/
def processExperts (request : ProcessExpertsRequest) (envs : List TaskEnv) :
    ProcessExpertsResponse :=
  let settled := settledTasks request.experts request.diff request.files envs
  let expertResults := expertResultsOf request.experts settled
  { results := expertResults.filter (fun r => r.status != ExpertStatus.not_relevant)
    metadata := metadataOf request.experts.length settled }

/-- Whether a (rule, environment) pair is a genuine timeout task: the
external call hangs while at least one file matches, so the timer's
synthetic result wins the race. -/
def isTimeoutTaskB (files : List String) (p : ExpertInput × TaskEnv) : Bool :=
  match p.2 with
  | .hangs =>
    match SingleExpert.matchingFiles p.1.patterns files with
    | some (_ :: _) => true
    | _ => false
  | .completes _ => false

end Experts

namespace ResultTs

/-- The file filter of `processThreadline`, using `result.ts`'s
`matchesPattern` (left-to-right, short-circuiting, throw aborts). -/
def someMatches (patterns : List String) (file : String) : Option Bool :=
  match patterns with
  | [] => some false
  | p :: ps =>
    match matchesPattern file p with
    | none => none
    | some true => some true
    | some false => someMatches ps file

/-- `files.filter(file => threadline.patterns.some(pattern =>
matchesPattern(file, pattern)))` in `processThreadline`. -/
def matchingFiles (patterns : List String) (files : List String) :
    Option (List String) :=
  match files with
  | [] => some []
  | f :: fs =>
    match someMatches patterns f with
    | none => none
    | some b =>
      match matchingFiles patterns fs with
      | none => none
      | some rest => some (if b then f :: rest else rest)

/-- `processThreadline` from `result.ts`, as the settling of the promise
it returns.  Unlike `processExpert` it has no `try`/`catch`, so a throw
from the call or the parse rejects the promise. -/
def processThreadline (threadline : ThreadlineInput) (diff : String)
    (files : List String) (o : CallOutcome) : Settled :=
  match matchingFiles threadline.patterns files with
  | none => .rejected (some regexSyntaxErrorMsg)
  | some [] =>
    .fulfilled
      { expertId := threadline.id
        status := .not_relevant
        reasoning := some ("No files match threadline patterns: " ++
          String.intercalate ", " threadline.patterns) }
  | some (f :: fs) =>
    match o with
    | .threw m => .rejected (some m)
    | .replied parsed =>
      .fulfilled (SingleExpert.successResult threadline diff (f :: fs) parsed)

end ResultTs

/-- `GitDiffResult` from `packages/cli/src/git/diff.ts`. -/
structure GitDiffResult where
  diff : String
  changedFiles : List String
deriving DecidableEq, Repr, Inhabited

namespace GitLocal

/-- One entry of simple-git's `status.files`: a path with the index
(staged) and working-directory status characters; `" "` means unchanged
on that side. -/
structure GitFileStatus where
  path : String
  index : String
  working_dir : String
deriving DecidableEq, Repr, Inhabited

/-- The parts of simple-git's `StatusResult` read by `getGitDiff`:
`staged` (paths with staged changes) and `files` (all status entries). -/
structure GitStatus where
  staged : List String
  files : List GitFileStatus
deriving DecidableEq, Repr, Inhabited

/-- The local git world as observed by `getGitDiff`: whether the
directory is a repository, the status, and the texts `git diff --cached`
and `git diff` would print. -/
structure LocalGitState where
  isRepo : Bool
  status : GitStatus
  stagedDiff : String
  unstagedDiff : String
deriving DecidableEq, Repr, Inhabited

/-- The changed-file list `getGitDiff` builds from the status entries:
every entry changed in the working directory or the index. -/
def changedFilesOf (status : GitStatus) : List String :=
  (status.files.filter
    (fun f => f.working_dir != " " || f.index != " ")).map (fun f => f.path)

/-- `getGitDiff` from `packages/cli/src/git/diff.ts`: throws outside a
repository; otherwise prefers the staged diff when anything is staged,
falls back to the unstaged diff when any file changed, and yields an
empty diff with no files otherwise.  The changed-file list always comes
from `git status`, not from the chosen diff. -/
def getGitDiff (g : LocalGitState) : Except String GitDiffResult :=
  if !g.isRepo then
    .error "Not a git repository. Threadline requires a git repository."
  else if g.status.staged.length > 0 then
    .ok { diff := g.stagedDiff, changedFiles := changedFilesOf g.status }
  else if g.status.files.length > 0 then
    .ok { diff := g.unstagedDiff, changedFiles := changedFilesOf g.status }
  else
    .ok { diff := "", changedFiles := [] }

end GitLocal

namespace GitHubCI

/-- JavaScript truthiness of an environment variable: set and non-empty. -/
def truthy : Option String → Bool
  | none => false
  | some s => s != ""

/-- The GitHub Actions environment variables read by `getGitHubDiff`. -/
structure GitHubEnv where
  eventName : Option String
  baseRef : Option String
  headRef : Option String
  refName : Option String
  commitSha : Option String
deriving DecidableEq, Repr, Inhabited

/-- The git repository as observed by `getGitHubDiff`: `diff args` is
what `git.diff(args)` would print, `diffSummaryFiles args` the file list
of `git.diffSummary(args)`, and `parentsRaw sha` the output (or throw)
of `git.raw(['log', '-1', '--format=%P', sha])`. -/
structure GitHubRepo where
  isRepo : Bool
  diff : List String → String
  diffSummaryFiles : List String → List String
  parentsRaw : String → Except String String

/-- The merge-commit parent count: trim the raw `%P` output and count
whitespace-separated tokens (zero for an empty string). -/
def parentCountOf (raw : String) : Nat :=
  let t := raw.trim
  if t = "" then 0
  else ((t.split Char.isWhitespace).filter (fun s => s != "")).length

/-- The merge-commit detection of scenario 2: on `main` with a commit
sha, look up the tip's parents; a throwing lookup or a single-parent tip
falls through to the branch logic. -/
def mergeDetected (env : GitHubEnv) (git : GitHubRepo) : Bool :=
  if env.refName = some "main" && truthy env.commitSha then
    match git.parentsRaw (env.commitSha.getD "") with
    | .error _ => false
    | .ok raw => decide (parentCountOf raw > 1)
  else false

/-- `getGitHubDiff` from `packages/cli/src/git/diff.ts`: PR context
compares `origin/base...origin/head`; a push to `main` whose tip is a
merge commit compares `origin/main~1...origin/main` (falling through to
the branch logic when the parent lookup throws or the tip is not a
merge); any other named ref compares `origin/main...origin/ref`; with no
context it throws. -/
def getGitHubDiff (env : GitHubEnv) (git : GitHubRepo) :
    Except String GitDiffResult :=
  if !git.isRepo then
    .error "Not a git repository. Threadline requires a git repository."
  else if env.eventName = some "pull_request" then
    if !truthy env.baseRef || !truthy env.headRef then
      .error ("GitHub PR context detected but GITHUB_BASE_REF or " ++
        "GITHUB_HEAD_REF is missing. This should be automatically " ++
        "provided by GitHub Actions.")
    else
      let range := "origin/" ++ (env.baseRef.getD "") ++ "..." ++
        "origin/" ++ (env.headRef.getD "")
      .ok { diff := git.diff [range, "-U200"]
            changedFiles := git.diffSummaryFiles [range] }
  else
    if mergeDetected env git then
      .ok { diff := git.diff ["origin/main~1...origin/main", "-U200"]
            changedFiles := git.diffSummaryFiles ["origin/main~1...origin/main"] }
    else if truthy env.refName then
      let range := "origin/main...origin/" ++ (env.refName.getD "")
      .ok { diff := git.diff [range, "-U200"]
            changedFiles := git.diffSummaryFiles [range] }
    else
      .error ("GitHub Actions environment detected but no valid context " ++
        "found. Expected GITHUB_EVENT_NAME=\"pull_request\" (with " ++
        "GITHUB_BASE_REF/GITHUB_HEAD_REF) or GITHUB_REF_NAME for branch " ++
        "context.")

end GitHubCI

/-! Concrete inputs used by the counterexamples and witnesses below. -/

/-- A rule whose single pattern matches no `.ts` file. -/
def sqlRule : ExpertInput :=
  { id := "r1", version := "1.0.0", patterns := ["**/*.sql"], content := "c" }

/-- A rule whose single pattern matches `a.ts`. -/
def tsRule : ExpertInput :=
  { id := "r2", version := "1.0.0", patterns := ["*.ts"], content := "c" }

/-- A rule whose single pattern matches no `.ts` file (single segment). -/
def sqlFlatRule : ExpertInput :=
  { id := "r1", version := "1.0.0", patterns := ["*.sql"], content := "c" }

/-- A two-rule request over the single changed file `a.ts`. -/
def twoRuleRequest : Experts.ProcessExpertsRequest :=
  { experts := [sqlFlatRule, tsRule], diff := "d", files := ["a.ts"], apiKey := "k" }

/-- Environments for `twoRuleRequest`: the first task hangs, the second
replies `compliant`. -/
def twoRuleEnvs : List TaskEnv :=
  [TaskEnv.hangs,
   TaskEnv.completes (.replied { status := some .compliant, reasoning := some "ok" })]

/-- The spec's end-to-end request: one rule with pattern `**/*.sql`,
changed files `["a.ts"]`. -/
def sqlOnTsRequest : Experts.ProcessExpertsRequest :=
  { experts := [sqlRule], diff := "", files := ["a.ts"], apiKey := "k" }

/-- A one-rule request whose rule matches the changed file. -/
def tsRuleRequest : Experts.ProcessExpertsRequest :=
  { experts := [tsRule], diff := "d", files := ["a.ts"], apiKey := "k" }

/-- A local git state with one staged file (`a.ts`) and one file changed
only in the working directory (`b.ts`); the staged diff mentions only
`a.ts`. -/
def stagedPlusUnstagedState : GitLocal.LocalGitState :=
  { isRepo := true,
    status := { staged := ["a.ts"],
                files := [{ path := "a.ts", index := "M", working_dir := " " },
                          { path := "b.ts", index := " ", working_dir := "M" }] },
    stagedDiff := "diff --git a/a.ts b/a.ts\n+x\n",
    unstagedDiff := "diff --git a/b.ts b/b.ts\n+y\n" }

/-- A local git state with nothing staged and one unstaged change. -/
def unstagedOnlyState : GitLocal.LocalGitState :=
  { isRepo := true,
    status := { staged := [],
                files := [{ path := "b.ts", index := " ", working_dir := "M" }] },
    stagedDiff := "STAGED",
    unstagedDiff := "diff --git a/b.ts b/b.ts\n+y\n" }

/-- A GitHub Actions pull-request environment. -/
def prEnv : GitHubCI.GitHubEnv :=
  { eventName := some "pull_request", baseRef := some "main",
    headRef := some "feature", refName := none, commitSha := none }

/-- A concrete GitHub repository observation whose diff and summary are
determined by the argument list. -/
def prRepo : GitHubCI.GitHubRepo :=
  { isRepo := true,
    diff := fun args => String.intercalate "|" args,
    diffSummaryFiles := fun args => args,
    parentsRaw := fun _ => .error "unavailable" }

/-- The result `getGitHubDiff prEnv prRepo` produces. -/
def prResult : GitDiffResult :=
  { diff := "origin/main...origin/feature|-U200",
    changedFiles := ["origin/main...origin/feature"] }

end Threadline

namespace Threadline

/-! Helper lemmas shared by the claim theorems. -/

/-- Every settled task is counted in exactly one of the three counters. -/
theorem settled_count_partition (l : List Settled) :
    l.countP Experts.isCompletedB + l.countP Experts.isTimedOutB +
      l.countP Experts.isErrorB = l.length := by
  induction l with
  | nil => simp
  | cons s t ih =>
    simp only [List.countP_cons, List.length_cons]
    cases s with
    | fulfilled r =>
      cases h : Experts.hasTimedOutReasoning r <;>
        simp [Experts.isCompletedB, Experts.isTimedOutB, Experts.isErrorB, h] <;>
        omega
    | rejected m =>
      simp [Experts.isCompletedB, Experts.isTimedOutB, Experts.isErrorB]
      omega

/-- A rule with zero matching files settles synchronously to the
short-circuit `not_relevant` result, whatever the task environment. -/
theorem raceExpert_noMatch (e : ExpertInput) (d : String) (files : List String)
    (env : TaskEnv) (h : SingleExpert.matchingFiles e.patterns files = some []) :
    Experts.raceExpert e d files env =
      .fulfilled { expertId := e.id, status := .not_relevant,
                   reasoning := some "No files match expert patterns" } := by
  cases env with
  | hangs => simp [Experts.raceExpert, h]
  | completes o => simp [Experts.raceExpert, SingleExpert.processExpert, h]

/-- The aggregation entry for task `i` always carries the id of rule `i`,
whatever the task environment. -/
theorem settledResult_raceExpert_expertId (e : ExpertInput) (d : String)
    (files : List String) (env : TaskEnv) :
    (Experts.settledResult e (Experts.raceExpert e d files env)).expertId = e.id := by
  cases env with
  | hangs =>
    cases h : SingleExpert.matchingFiles e.patterns files with
    | none => simp [Experts.raceExpert, h, Experts.settledResult]
    | some l => cases l <;> simp [Experts.raceExpert, h, Experts.settledResult]
  | completes o =>
    cases h : SingleExpert.matchingFiles e.patterns files with
    | none =>
      simp [Experts.raceExpert, SingleExpert.processExpert, h, Experts.settledResult]
    | some l =>
      cases l with
      | nil =>
        simp [Experts.raceExpert, SingleExpert.processExpert, h, Experts.settledResult]
      | cons f fs =>
        cases o <;>
          simp [Experts.raceExpert, SingleExpert.processExpert, h,
            Experts.settledResult, SingleExpert.successResult]

/-- The pre-filter result list carries the rule ids in input order. -/
theorem expertResultsOf_map_expertId (experts : List ExpertInput) (d : String)
    (files : List String) (envs : List TaskEnv)
    (hlen : envs.length = experts.length) :
    (Experts.expertResultsOf experts
        (Experts.settledTasks experts d files envs)).map (fun r => r.expertId) =
      experts.map (fun e => e.id) := by
  induction experts generalizing envs with
  | nil => simp [Experts.expertResultsOf, Experts.settledTasks]
  | cons e es ih =>
    cases envs with
    | nil => simp at hlen
    | cons env rest =>
      have hr : rest.length = es.length := by simpa using hlen
      simp only [Experts.settledTasks, List.zipWith_cons_cons,
        Experts.expertResultsOf, List.zip_cons_cons, List.map_cons]
      rw [settledResult_raceExpert_expertId]
      have := ih rest hr
      simp only [Experts.expertResultsOf, Experts.settledTasks] at this
      rw [this]

/-- A task that does not hang is classified `timedOut` exactly when its
pair is a genuine timeout task (never), and a hanging task exactly when
some file matches; the side hypothesis rules out a completed reply whose
reasoning happens to contain the timeout marker. -/
theorem isTimedOutB_raceExpert (e : ExpertInput) (d : String)
    (files : List String) (env : TaskEnv)
    (hc : env ≠ TaskEnv.hangs →
      Experts.isTimedOutB (Experts.raceExpert e d files env) = false) :
    Experts.isTimedOutB (Experts.raceExpert e d files env) =
      Experts.isTimeoutTaskB files (e, env) := by
  cases env with
  | completes o =>
    rw [hc (by intro h; cases h)]
    simp [Experts.isTimeoutTaskB]
  | hangs =>
    have hno : strIncludes "No files match expert patterns" "timed out" = false := by
      decide
    have hyes : strIncludes "Request timed out after 40s" "timed out" = true := by
      decide
    cases h : SingleExpert.matchingFiles e.patterns files with
    | none =>
      simp [Experts.raceExpert, h, Experts.isTimedOutB, Experts.isTimeoutTaskB]
    | some l =>
      cases l with
      | nil =>
        simp [Experts.raceExpert, h, Experts.isTimedOutB, Experts.isTimeoutTaskB,
          Experts.hasTimedOutReasoning, hno]
      | cons f fs =>
        simp [Experts.raceExpert, h, Experts.isTimedOutB, Experts.isTimeoutTaskB,
          Experts.hasTimedOutReasoning, hyes]

/-- The `timedOut` counter equals the number of genuine timeout tasks,
provided no non-hanging task produced the timeout marker. -/
theorem countP_timedOut_eq (experts : List ExpertInput) (d : String)
    (files : List String) (envs : List TaskEnv)
    (hclean : ∀ p ∈ experts.zip envs, p.2 ≠ TaskEnv.hangs →
      Experts.isTimedOutB (Experts.raceExpert p.1 d files p.2) = false) :
    (Experts.settledTasks experts d files envs).countP Experts.isTimedOutB =
      (experts.zip envs).countP (Experts.isTimeoutTaskB files) := by
  induction experts generalizing envs with
  | nil => simp [Experts.settledTasks]
  | cons e es ih =>
    cases envs with
    | nil => simp [Experts.settledTasks]
    | cons env rest =>
      have hhead : env ≠ TaskEnv.hangs →
          Experts.isTimedOutB (Experts.raceExpert e d files env) = false :=
        hclean (e, env) (by rw [List.zip_cons_cons]; exact List.mem_cons_self _ _)
      have htail : ∀ p ∈ es.zip rest, p.2 ≠ TaskEnv.hangs →
          Experts.isTimedOutB (Experts.raceExpert p.1 d files p.2) = false :=
        fun p hp =>
          hclean p (by rw [List.zip_cons_cons]; exact List.mem_cons_of_mem _ hp)
      have hih := ih rest htail
      simp only [Experts.settledTasks, List.zipWith_cons_cons, List.zip_cons_cons,
        List.countP_cons] at hih ⊢
      rw [hih, isTimedOutB_raceExpert e d files env hhead]

/-- `processExperts` on a single rule with zero matching files: empty
visible results, one completed task. -/
theorem processExperts_single_noMatch (e : ExpertInput) (d : String)
    (files : List String) (k : String) (env : TaskEnv)
    (h : SingleExpert.matchingFiles e.patterns files = some []) :
    Experts.processExperts { experts := [e], diff := d, files := files, apiKey := k }
      [env] =
      { results := [],
        metadata := { totalExperts := 1, completed := 1, timedOut := 0, errors := 0 } } := by
  have hra := raceExpert_noMatch e d files env h
  have hmark : strIncludes "No files match expert patterns" "timed out" = false := by
    decide
  simp [Experts.processExperts, Experts.settledTasks, Experts.expertResultsOf,
    Experts.metadataOf, hra, Experts.settledResult, Experts.isCompletedB,
    Experts.isTimedOutB, Experts.isErrorB, Experts.hasTimedOutReasoning, hmark]

end Threadline

section Claims

open Threadline

/-- C1: for every dispatched rule list (one task environment per rule),
the aggregate report satisfies `completed + timedOut + errors =
totalExperts`, `totalExperts` is the number of input rules, and the
pre-filter result list has exactly one entry per rule. -/
theorem C1_metadata_invariant (request : Experts.ProcessExpertsRequest)
    (envs : List TaskEnv) (hlen : envs.length = request.experts.length) :
    ((Experts.processExperts request envs).metadata.completed +
        (Experts.processExperts request envs).metadata.timedOut +
        (Experts.processExperts request envs).metadata.errors =
      (Experts.processExperts request envs).metadata.totalExperts) ∧
    (Experts.processExperts request envs).metadata.totalExperts =
      request.experts.length ∧
    (Experts.expertResultsOf request.experts
        (Experts.settledTasks request.experts request.diff request.files envs)).length =
      request.experts.length := by
  have hset : (Experts.settledTasks request.experts request.diff
      request.files envs).length = request.experts.length := by
    simp [Experts.settledTasks, hlen]
  refine ⟨?_, rfl, ?_⟩
  · simpa [Experts.processExperts, Experts.metadataOf, hset] using
      settled_count_partition
        (Experts.settledTasks request.experts request.diff request.files envs)
  · simp [Experts.expertResultsOf, hset]

/-- C1 witness: the invariant evaluated on a concrete two-rule dispatch. -/
theorem C1_metadata_invariant_witness :
    (twoRuleEnvs.length = twoRuleRequest.experts.length) ∧
    (((Experts.processExperts twoRuleRequest twoRuleEnvs).metadata.completed +
        (Experts.processExperts twoRuleRequest twoRuleEnvs).metadata.timedOut +
        (Experts.processExperts twoRuleRequest twoRuleEnvs).metadata.errors =
      (Experts.processExperts twoRuleRequest twoRuleEnvs).metadata.totalExperts) ∧
    (Experts.processExperts twoRuleRequest twoRuleEnvs).metadata.totalExperts =
      twoRuleRequest.experts.length ∧
    (Experts.expertResultsOf twoRuleRequest.experts
        (Experts.settledTasks twoRuleRequest.experts twoRuleRequest.diff
          twoRuleRequest.files twoRuleEnvs)).length =
      twoRuleRequest.experts.length) :=
  ⟨by decide, C1_metadata_invariant twoRuleRequest twoRuleEnvs (by decide)⟩

/-- C2 counterexample: on the spec's end-to-end input (one rule with
pattern `**/*.sql`, files `["a.ts"]`) the pipeline reports
`completed = 1`, not the claimed `completed = 0`: the short-circuited
`not_relevant` task is counted as completed. -/
theorem C2_counterexample :
    Experts.processExperts sqlOnTsRequest [TaskEnv.hangs] =
      { results := [],
        metadata := { totalExperts := 1, completed := 1, timedOut := 0, errors := 0 } } ∧
    (Experts.processExperts sqlOnTsRequest [TaskEnv.hangs]).metadata.completed ≠ 0 := by
  decide

/-- C2 amended: on the spec's end-to-end input the pipeline returns
`{results: [], metadata: {totalExperts: 1, completed: 1, timedOut: 0,
errors: 0}}` — the single `not_relevant` result is filtered out but is
counted as completed, not left at zero. -/
theorem C2_filtered_report (envs : List TaskEnv) (hlen : envs.length = 1) :
    Experts.processExperts sqlOnTsRequest envs =
      { results := [],
        metadata := { totalExperts := 1, completed := 1, timedOut := 0, errors := 0 } } := by
  obtain ⟨env, rfl⟩ : ∃ env, envs = [env] := by
    cases envs with
    | nil => simp at hlen
    | cons a t =>
      cases t with
      | nil => exact ⟨a, rfl⟩
      | cons b u => simp at hlen
  exact processExperts_single_noMatch sqlRule "" ["a.ts"] "k" env (by decide)

/-- C2 witness: the amended report evaluated on a concrete environment. -/
theorem C2_filtered_report_witness :
    ([TaskEnv.completes (.threw "boom")].length = 1) ∧
    Experts.processExperts sqlOnTsRequest [TaskEnv.completes (.threw "boom")] =
      { results := [],
        metadata := { totalExperts := 1, completed := 1, timedOut := 0, errors := 0 } } :=
  ⟨by decide, C2_filtered_report [TaskEnv.completes (.threw "boom")] (by decide)⟩

/-- C3 counterexample: `**/*.ts` does not match `a.ts` in the
`result.ts` matcher (the `/` after `**` is still required), and in the
`single-expert.ts` matcher it does not even match `src/a/b.ts` (the `*`
pass corrupts the `.*` produced for `**`). -/
theorem C3_counterexample :
    ResultTs.matchesPattern "a.ts" "**/*.ts" = some false ∧
    SingleExpert.matchesPattern "src/a/b.ts" "**/*.ts" = some false := by decide

/-- C3 amended: in the `result.ts` matcher `**` becomes `.*` (any run of
characters including `/`) but the separator written after it stays
required, so `**/*.ts` matches `src/a/b.ts` and not `a.ts`; `*` excludes
`/` and patterns are anchored, so `src/*.ts` matches `src/a.ts` and not
`src/b/a.ts`.  The `single-expert.ts` matcher used by the dispatch
pipeline corrupts `**` into `.[^/]*`, so there `**/*.ts` matches neither
`src/a/b.ts` nor `a.ts`, while single-star patterns behave as in
`result.ts`. -/
theorem C3_glob_semantics :
    ResultTs.matchesPattern "src/a/b.ts" "**/*.ts" = some true ∧
    ResultTs.matchesPattern "a.ts" "**/*.ts" = some false ∧
    ResultTs.matchesPattern "src/a.ts" "src/*.ts" = some true ∧
    ResultTs.matchesPattern "src/b/a.ts" "src/*.ts" = some false ∧
    SingleExpert.matchesPattern "src/a/b.ts" "**/*.ts" = some false ∧
    SingleExpert.matchesPattern "a.ts" "**/*.ts" = some false ∧
    SingleExpert.matchesPattern "src/a.ts" "src/*.ts" = some true ∧
    SingleExpert.matchesPattern "src/b/a.ts" "src/*.ts" = some false := by decide

/-- C4: a rule none of whose patterns match any changed file settles to
the short-circuit `not_relevant` result in every task environment (so no
completion call is consulted), two evaluations on the same input agree,
and `processThreadline` likewise short-circuits. -/
theorem C4_noMatch_short_circuit (e : ExpertInput) (d : String)
    (files : List String)
    (hse : SingleExpert.matchingFiles e.patterns files = some [])
    (ht : ResultTs.matchingFiles e.patterns files = some []) :
    (∀ env : TaskEnv,
      Experts.raceExpert e d files env =
        .fulfilled { expertId := e.id, status := .not_relevant,
                     reasoning := some "No files match expert patterns" }) ∧
    (∀ env1 env2 : TaskEnv,
      Experts.raceExpert e d files env1 = Experts.raceExpert e d files env2) ∧
    (∀ o : CallOutcome,
      ResultTs.processThreadline e d files o =
        .fulfilled { expertId := e.id, status := .not_relevant,
                     reasoning := some ("No files match threadline patterns: " ++
                       String.intercalate ", " e.patterns) }) := by
  refine ⟨fun env => raceExpert_noMatch e d files env hse, ?_, ?_⟩
  · intro env1 env2
    rw [raceExpert_noMatch e d files env1 hse, raceExpert_noMatch e d files env2 hse]
  · intro o
    simp [ResultTs.processThreadline, ht]

/-- C4 witness: the short-circuit evaluated for the `**/*.sql` rule on
changed files `["a.ts"]`. -/
theorem C4_noMatch_short_circuit_witness :
    (SingleExpert.matchingFiles sqlRule.patterns ["a.ts"] = some []) ∧
    (ResultTs.matchingFiles sqlRule.patterns ["a.ts"] = some []) ∧
    ((∀ env : TaskEnv,
      Experts.raceExpert sqlRule "" ["a.ts"] env =
        .fulfilled { expertId := sqlRule.id, status := .not_relevant,
                     reasoning := some "No files match expert patterns" }) ∧
    (∀ env1 env2 : TaskEnv,
      Experts.raceExpert sqlRule "" ["a.ts"] env1 =
        Experts.raceExpert sqlRule "" ["a.ts"] env2) ∧
    (∀ o : CallOutcome,
      ResultTs.processThreadline sqlRule "" ["a.ts"] o =
        .fulfilled { expertId := sqlRule.id, status := .not_relevant,
                     reasoning := some ("No files match threadline patterns: " ++
                       String.intercalate ", " sqlRule.patterns) })) :=
  ⟨by decide, by decide,
   C4_noMatch_short_circuit sqlRule "" ["a.ts"] (by decide) (by decide)⟩

/-- C5: a task whose external call outlives the 40 s timer settles to
the synthetic `not_relevant` result carrying the timeout reasoning
string, and `metadata.timedOut` counts exactly one per such task
(assuming no non-hanging task's reasoning happens to contain the
string-matched timeout marker). -/
theorem C5_timeout_accounting (request : Experts.ProcessExpertsRequest)
    (envs : List TaskEnv)
    (hclean : ∀ p ∈ request.experts.zip envs, p.2 ≠ TaskEnv.hangs →
      Experts.isTimedOutB
        (Experts.raceExpert p.1 request.diff request.files p.2) = false) :
    (∀ p ∈ request.experts.zip envs, p.2 = TaskEnv.hangs →
      ∀ f fs, SingleExpert.matchingFiles p.1.patterns request.files = some (f :: fs) →
        Experts.raceExpert p.1 request.diff request.files p.2 =
          .fulfilled { expertId := p.1.id, status := .not_relevant,
                       reasoning := some "Request timed out after 40s" }) ∧
    (Experts.processExperts request envs).metadata.timedOut =
      (request.experts.zip envs).countP (Experts.isTimeoutTaskB request.files) := by
  constructor
  · intro p hp he f fs hm
    rw [he]
    simp [Experts.raceExpert, hm]
  · simpa [Experts.processExperts, Experts.metadataOf] using
      countP_timedOut_eq request.experts request.diff request.files envs hclean

/-- C5 witness: the timeout accounting evaluated on one matching rule
whose call hangs. -/
theorem C5_timeout_accounting_witness :
    (∀ p ∈ tsRuleRequest.experts.zip [TaskEnv.hangs], p.2 ≠ TaskEnv.hangs →
      Experts.isTimedOutB
        (Experts.raceExpert p.1 tsRuleRequest.diff tsRuleRequest.files p.2) = false) ∧
    ((∀ p ∈ tsRuleRequest.experts.zip [TaskEnv.hangs], p.2 = TaskEnv.hangs →
      ∀ f fs,
        SingleExpert.matchingFiles p.1.patterns tsRuleRequest.files = some (f :: fs) →
        Experts.raceExpert p.1 tsRuleRequest.diff tsRuleRequest.files p.2 =
          .fulfilled { expertId := p.1.id, status := .not_relevant,
                       reasoning := some "Request timed out after 40s" }) ∧
    (Experts.processExperts tsRuleRequest [TaskEnv.hangs]).metadata.timedOut =
      (tsRuleRequest.experts.zip [TaskEnv.hangs]).countP
        (Experts.isTimeoutTaskB tsRuleRequest.files)) :=
  ⟨by decide, C5_timeout_accounting tsRuleRequest [TaskEnv.hangs] (by decide)⟩

/-- C6 counterexample: a network/transport exception from the completion
call is caught inside `processExpert`, so the task counts as *completed*
(`errors = 0`), and the visible result list does not contain the
`not_relevant` entry (it is filtered) — contradicting the claim that
`metadata.errors` counts such a task. -/
theorem C6_counterexample :
    Experts.processExperts tsRuleRequest
        [TaskEnv.completes (.threw "connect ECONNREFUSED 127.0.0.1:443")] =
      { results := [],
        metadata := { totalExperts := 1, completed := 1, timedOut := 0, errors := 0 } } ∧
    (Experts.processExperts tsRuleRequest
        [TaskEnv.completes (.threw "connect ECONNREFUSED 127.0.0.1:443")]).metadata.errors
      = 0 := by decide

/-- C6 amended: a network/transport exception thrown by the completion
call is contained to its task but *soft-failed*: the task settles
fulfilled with a `not_relevant` result whose reasoning embeds the
message as `Error processing expert: <msg>`, and it is counted as
completed, not as an error.  Only a rejected task (an error thrown
outside the `try` block, e.g. an invalid pattern regex) is counted in
`metadata.errors`, and its pre-filter entry is `not_relevant` with
reasoning `Error: <msg>`. -/
theorem C6_error_containment (e : ExpertInput) (d : String)
    (files : List String) (m : String) (f : String) (fs : List String)
    (hm : SingleExpert.matchingFiles e.patterns files = some (f :: fs)) :
    Experts.raceExpert e d files (.completes (.threw m)) =
      .fulfilled { expertId := e.id, status := .not_relevant,
                   reasoning := some ("Error processing expert: " ++ m) } ∧
    (strIncludes ("Error processing expert: " ++ m) "timed out" = false →
      Experts.isCompletedB (Experts.raceExpert e d files (.completes (.threw m))) = true ∧
      Experts.isErrorB (Experts.raceExpert e d files (.completes (.threw m))) = false) ∧
    (∀ reason : Option String,
      Experts.settledResult e (.rejected reason) =
        { expertId := e.id, status := .not_relevant,
          reasoning := some ("Error: " ++ reason.getD "Unknown error") } ∧
      Experts.isErrorB (.rejected reason) = true) := by
  have h1 : Experts.raceExpert e d files (.completes (.threw m)) =
      .fulfilled { expertId := e.id, status := .not_relevant,
                   reasoning := some ("Error processing expert: " ++ m) } := by
    simp [Experts.raceExpert, SingleExpert.processExpert, hm]
  refine ⟨h1, ?_, fun reason => ⟨rfl, rfl⟩⟩
  intro hmk
  rw [h1]
  simp [Experts.isCompletedB, Experts.isErrorB, Experts.hasTimedOutReasoning, hmk]

/-- C6 witness: the containment evaluated on a concrete network error. -/
theorem C6_error_containment_witness :
    (SingleExpert.matchingFiles tsRule.patterns ["a.ts"] = some ("a.ts" :: [])) ∧
    (Experts.raceExpert tsRule "d" ["a.ts"]
        (.completes (.threw "connect ECONNREFUSED 127.0.0.1:443")) =
      .fulfilled { expertId := tsRule.id, status := .not_relevant,
                   reasoning := some ("Error processing expert: " ++
                     "connect ECONNREFUSED 127.0.0.1:443") } ∧
    (strIncludes ("Error processing expert: " ++ "connect ECONNREFUSED 127.0.0.1:443")
        "timed out" = false →
      Experts.isCompletedB (Experts.raceExpert tsRule "d" ["a.ts"]
        (.completes (.threw "connect ECONNREFUSED 127.0.0.1:443"))) = true ∧
      Experts.isErrorB (Experts.raceExpert tsRule "d" ["a.ts"]
        (.completes (.threw "connect ECONNREFUSED 127.0.0.1:443"))) = false) ∧
    (∀ reason : Option String,
      Experts.settledResult tsRule (.rejected reason) =
        { expertId := tsRule.id, status := .not_relevant,
          reasoning := some ("Error: " ++ reason.getD "Unknown error") } ∧
      Experts.isErrorB (.rejected reason) = true)) :=
  ⟨by decide,
   C6_error_containment tsRule "d" ["a.ts"] "connect ECONNREFUSED 127.0.0.1:443"
     "a.ts" [] (by decide)⟩

/-- C7 counterexample: with a first rule that matches nothing, its
`not_relevant` result is filtered out of the visible list, so
`results[0]` is the result of `rules[1]`, not of `rules[0]` — the
externally returned list is not index-aligned with the input. -/
theorem C7_counterexample :
    (Experts.processExperts twoRuleRequest twoRuleEnvs).results.map
        (fun r => r.expertId) = ["r2"] ∧
    twoRuleRequest.experts.map (fun e => e.id) = ["r1", "r2"] ∧
    (Experts.processExperts twoRuleRequest twoRuleEnvs).results.length ≠
      twoRuleRequest.experts.length := by decide

/-- C7 amended: the *pre-filter* result list is index-aligned with the
input rules — entry `i` carries the id of rule `i`, independent of task
environments (hence of completion order) — and the externally visible
`results` list is that list with `not_relevant` entries filtered out, so
it preserves relative input order but not indices. -/
theorem C7_prefilter_alignment (request : Experts.ProcessExpertsRequest)
    (envs : List TaskEnv) (hlen : envs.length = request.experts.length) :
    (Experts.expertResultsOf request.experts
        (Experts.settledTasks request.experts request.diff request.files envs)).map
      (fun r => r.expertId) = request.experts.map (fun e => e.id) ∧
    (Experts.processExperts request envs).results =
      (Experts.expertResultsOf request.experts
        (Experts.settledTasks request.experts request.diff request.files envs)).filter
        (fun r => r.status != ExpertStatus.not_relevant) :=
  ⟨expertResultsOf_map_expertId request.experts request.diff request.files envs hlen,
   rfl⟩

/-- C7 witness: the alignment evaluated on the concrete two-rule
dispatch. -/
theorem C7_prefilter_alignment_witness :
    (twoRuleEnvs.length = twoRuleRequest.experts.length) ∧
    ((Experts.expertResultsOf twoRuleRequest.experts
        (Experts.settledTasks twoRuleRequest.experts twoRuleRequest.diff
          twoRuleRequest.files twoRuleEnvs)).map (fun r => r.expertId) =
      twoRuleRequest.experts.map (fun e => e.id) ∧
    (Experts.processExperts twoRuleRequest twoRuleEnvs).results =
      (Experts.expertResultsOf twoRuleRequest.experts
        (Experts.settledTasks twoRuleRequest.experts twoRuleRequest.diff
          twoRuleRequest.files twoRuleEnvs)).filter
        (fun r => r.status != ExpertStatus.not_relevant)) :=
  ⟨by decide, C7_prefilter_alignment twoRuleRequest twoRuleEnvs (by decide)⟩

/-- C8 counterexample: in the local resolver, `changedFiles` comes from
`git status`, not from the chosen diff: with `a.ts` staged and `b.ts`
changed only in the working tree, the returned diff is the staged diff
(mentioning only `a.ts`) while `changedFiles` lists `b.ts` as well, so a
listed file does not appear in the diff. -/
theorem C8_counterexample :
    GitLocal.getGitDiff stagedPlusUnstagedState =
      .ok { diff := "diff --git a/a.ts b/a.ts\n+x\n",
            changedFiles := ["a.ts", "b.ts"] } ∧
    strIncludes "diff --git a/a.ts b/a.ts\n+x\n" "b.ts" = false :=
  ⟨rfl, by decide⟩

/-- C8 amended: in the GitHub CI resolver every successful result's
`changedFiles` is derived from the diff summary of the *same* revision
range as the diff text, so the two agree by construction; the local
resolver instead derives `changedFiles` from `git status`, which can
list files absent from the returned diff. -/
theorem C8_summary_alignment (env : GitHubCI.GitHubEnv)
    (git : GitHubCI.GitHubRepo) (r : GitDiffResult)
    (h : GitHubCI.getGitHubDiff env git = .ok r) :
    ∃ range, r.diff = git.diff [range, "-U200"] ∧
      r.changedFiles = git.diffSummaryFiles [range] := by
  unfold GitHubCI.getGitHubDiff at h
  split at h
  · simp at h
  · split at h
    · split at h
      · simp at h
      · injection h with h
        subst h
        exact ⟨_, rfl, rfl⟩
    · split at h
      · injection h with h
        subst h
        exact ⟨_, rfl, rfl⟩
      · split at h
        · injection h with h
          subst h
          exact ⟨_, rfl, rfl⟩
        · simp at h

/-- C8 witness: the alignment evaluated on a concrete pull-request
environment. -/
theorem C8_summary_alignment_witness :
    (GitHubCI.getGitHubDiff prEnv prRepo = .ok prResult) ∧
    ∃ range, prResult.diff = prRepo.diff [range, "-U200"] ∧
      prResult.changedFiles = prRepo.diffSummaryFiles [range] :=
  ⟨rfl, C8_summary_alignment prEnv prRepo prResult rfl⟩

/-- C9 counterexample: the local diff resolver *can* throw — invoked
outside a git repository it returns the `Not a git repository` error, so
"this path never throws" does not hold unconditionally. -/
theorem C9_counterexample :
    GitLocal.getGitDiff
        { isRepo := false, status := { staged := [], files := [] },
          stagedDiff := "", unstagedDiff := "" } =
      .error "Not a git repository. Threadline requires a git repository." :=
  rfl

/-- C9 amended: *given a git repository*, the local resolver never
throws: it prefers the staged diff when anything is staged; with nothing
staged but some file changed it returns the unstaged diff and never
consults the staged diff (the result is invariant in it); with no
changes at all it returns an empty diff with zero changed files.
Outside a git repository it throws. -/
theorem C9_local_resolution (g : GitLocal.LocalGitState)
    (hrepo : g.isRepo = true) :
    (∃ r, GitLocal.getGitDiff g = .ok r) ∧
    (g.status.staged.length > 0 →
      GitLocal.getGitDiff g =
        .ok { diff := g.stagedDiff,
              changedFiles := GitLocal.changedFilesOf g.status }) ∧
    (g.status.staged = [] → g.status.files.length > 0 →
      GitLocal.getGitDiff g =
        .ok { diff := g.unstagedDiff,
              changedFiles := GitLocal.changedFilesOf g.status } ∧
      ∀ d : String,
        GitLocal.getGitDiff { g with stagedDiff := d } = GitLocal.getGitDiff g) ∧
    (g.status.staged = [] → g.status.files = [] →
      GitLocal.getGitDiff g = .ok { diff := "", changedFiles := [] }) := by
  refine ⟨?_, ?_, ?_, ?_⟩
  · by_cases hs : g.status.staged.length > 0
    · exact ⟨{ diff := g.stagedDiff, changedFiles := GitLocal.changedFilesOf g.status },
        by simp [GitLocal.getGitDiff, hrepo, hs]⟩
    · by_cases hf : g.status.files.length > 0
      · exact ⟨{ diff := g.unstagedDiff, changedFiles := GitLocal.changedFilesOf g.status },
          by simp [GitLocal.getGitDiff, hrepo, hs, hf]⟩
      · exact ⟨{ diff := "", changedFiles := [] },
          by simp [GitLocal.getGitDiff, hrepo, hs, hf]⟩
  · intro hstaged
    simp [GitLocal.getGitDiff, hrepo, hstaged]
  · intro hstaged hfiles
    constructor
    · simp [GitLocal.getGitDiff, hrepo, hstaged, hfiles]
    · intro d
      simp [GitLocal.getGitDiff, hrepo, hstaged, hfiles]
  · intro hstaged hfiles
    simp [GitLocal.getGitDiff, hrepo, hstaged, hfiles]

/-- C9 witness: the resolution evaluated on a repository with only an
unstaged change. -/
theorem C9_local_resolution_witness :
    (unstagedOnlyState.isRepo = true) ∧
    ((∃ r, GitLocal.getGitDiff unstagedOnlyState = .ok r) ∧
    (unstagedOnlyState.status.staged.length > 0 →
      GitLocal.getGitDiff unstagedOnlyState =
        .ok { diff := unstagedOnlyState.stagedDiff,
              changedFiles := GitLocal.changedFilesOf unstagedOnlyState.status }) ∧
    (unstagedOnlyState.status.staged = [] →
      unstagedOnlyState.status.files.length > 0 →
      GitLocal.getGitDiff unstagedOnlyState =
        .ok { diff := unstagedOnlyState.unstagedDiff,
              changedFiles := GitLocal.changedFilesOf unstagedOnlyState.status } ∧
      ∀ d : String,
        GitLocal.getGitDiff { unstagedOnlyState with stagedDiff := d } =
          GitLocal.getGitDiff unstagedOnlyState) ∧
    (unstagedOnlyState.status.staged = [] →
      unstagedOnlyState.status.files = [] →
      GitLocal.getGitDiff unstagedOnlyState = .ok { diff := "", changedFiles := [] })) :=
  ⟨rfl, C9_local_resolution unstagedOnlyState rfl⟩

/-- C10: the glob-to-regex conversion escapes no regex metacharacters:
in both matchers the pattern `a.ts` (with a literal dot) matches the
non-glob-matching file `aXts`, and the pattern `(` makes the RegExp
constructor throw instead of the matcher returning a Boolean. -/
theorem C10_matcher_not_total :
    ResultTs.matchesPattern "aXts" "a.ts" = some true ∧
    SingleExpert.matchesPattern "aXts" "a.ts" = some true ∧
    ResultTs.matchesPattern "a.ts" "(" = none ∧
    SingleExpert.matchesPattern "a.ts" "(" = none := by decide


end Claims
